import Mathlib

/-!
Verification of the voice-orchestration backend (src/app.py).

The service is a FastAPI app proxying three external providers:
AssemblyAI (transcription), Murf (speech synthesis) and Gemini (LLM).
We shallowly embed each endpoint body as a pure Lean function over an
explicit environment `Env` that carries the three configured API keys
and the behaviour of each external provider (a call either returns a
parsed response or raises, modelled by `Except String`).  Each endpoint
returns its HTTP response together with the trace of provider calls it
issued, so that temporal claims ("no call to the synthesis provider")
are statable.
-/

namespace FlaskDeploy

/-- Model of Python `str.lower()` on a single character, for the ASCII
range the app's voice labels live in: an ASCII uppercase letter
(code points 65..90) is shifted by 32, every other character is kept. -/
def lowerChar (c : Char) : Char :=
  if 65 ≤ c.toNat ∧ c.toNat ≤ 90 then Char.ofNat (c.toNat + 32) else c

/-- Model of Python `str.lower()` (ASCII case folding), mapping
`lowerChar` over the characters of the string. -/
def strLower (s : String) : String :=
  ⟨s.data.map lowerChar⟩

/-- Model of Python `dict.get(k, d)` on an association list. -/
def dictGet (m : List (String × String)) (k d : String) : String :=
  match m.lookup k with
  | some v => v
  | none => d

/-- The fixed style-label → Murf voice-id dict literal of `generate_voice`
(src/app.py lines 78-84). -/
def generate_voice_map : List (String × String) :=
  [("default", "en-US-natalie"),
   ("narrator", "en-US-terrell"),
   ("support", "en-US-miles"),
   ("sergeant", "en-US-ken"),
   ("game", "en-US-paul")]

/-- The identical dict literal repeated inside `voice_reply`
(src/app.py lines 165-171). -/
def voice_reply_voice_map : List (String × String) :=
  [("default", "en-US-natalie"),
   ("narrator", "en-US-terrell"),
   ("support", "en-US-miles"),
   ("sergeant", "en-US-ken"),
   ("game", "en-US-paul")]

/-- The identical dict literal repeated inside `murf_tts_json`
(src/app.py lines 213-219). -/
def murf_tts_json_voice_map : List (String × String) :=
  [("default", "en-US-natalie"),
   ("narrator", "en-US-terrell"),
   ("support", "en-US-miles"),
   ("sergeant", "en-US-ken"),
   ("game", "en-US-paul")]

/-- Voice resolution step of `/generate`:
`voice_map.get(data.voice.lower(), "en-US-natalie")` (src/app.py line 85). -/
def generateResolve (voice : String) : String :=
  dictGet generate_voice_map (strLower voice) "en-US-natalie"

/-- Voice resolution step of `/voice-reply`:
`voice_map.get(voice.lower(), "en-US-natalie")` (src/app.py line 172). -/
def voiceReplyResolve (voice : String) : String :=
  dictGet voice_reply_voice_map (strLower voice) "en-US-natalie"

/-- Voice resolution step of `/murf-tts-json`:
`voice_map.get(data.voice.lower(), "en-US-natalie")` (src/app.py line 220). -/
def murfTtsJsonResolve (voice : String) : String :=
  dictGet murf_tts_json_voice_map (strLower voice) "en-US-natalie"

/-- For code points in the lowercase-letter range, `Char.ofNat` round-trips
through `Char.toNat`. -/
theorem toNat_ofNat_lower (n : Nat) (h1 : 97 ≤ n) (h2 : n ≤ 122) :
    (Char.ofNat n).toNat = n := by
  interval_cases n <;> rfl

/-- ASCII lowering is idempotent on characters. -/
theorem lowerChar_idem (c : Char) : lowerChar (lowerChar c) = lowerChar c := by
  unfold lowerChar
  by_cases h : 65 ≤ c.toNat ∧ c.toNat ≤ 90
  · rw [if_pos h, if_neg]
    rw [toNat_ofNat_lower (c.toNat + 32) (by omega) (by omega)]
    omega
  · rw [if_neg h, if_neg h]

/-- ASCII lowering is idempotent on strings. -/
theorem strLower_idem (s : String) : strLower (strLower s) = strLower s := by
  unfold strLower
  simp only [List.map_map]
  congr 1
  induction s.data with
  | nil => rfl
  | cons c cs ih =>
      simp only [List.map_cons, Function.comp_apply, ih, lowerChar_idem]

/-- JSON payload sent to the Murf synthesis endpoint: `{"text": ...,
"voice_id": ...}` in `/generate` (no `format` key, src/app.py line 92) and
`{"text": ..., "voice_id": ..., "format": "mp3"}` in `/voice-reply` and
`/murf-tts-json` (lines 179, 227). -/
structure MurfPayload where
  text : String
  voice_id : String
  format : Option String
deriving DecidableEq, Repr

/-- Parsed response of the Murf synthesis call: HTTP status, raw body text
(`response.text`), and the `audioFile` field of the parsed JSON body
(`none` when the key is absent, `some ""` when present but empty). -/
structure MurfResp where
  status : Nat
  text : String
  audioFile : Option String
deriving DecidableEq, Repr

/-- Response of the audio download `requests.get(audio_url)`: HTTP status
and content bytes. -/
structure FetchResp where
  status : Nat
  content : List Nat
deriving DecidableEq, Repr

/-- Parsed response of the Gemini call: HTTP status, raw body text, and
the text of `data["candidates"][0]["content"]["parts"][0]["text"]`
(`none` when `candidates` is absent or empty). -/
structure GeminiResp where
  status : Nat
  text : String
  firstCandidate : Option String
deriving DecidableEq, Repr

/-- One outbound provider request issued during an endpoint execution. -/
inductive ProviderCall where
  | transcribe (apiKey : Option String) (audioBytes : List Nat)
  | murfGenerate (apiKey : Option String) (payload : MurfPayload)
  | fetchAudio (url : String)
  | gemini (apiKey : Option String) (text : String)
deriving DecidableEq, Repr

/-- Environment of one request: the three API keys read from the process
environment at startup (src/app.py lines 37-39; `os.getenv` yields `none`
when the variable is unset) and the behaviour of each external provider.
A provider function returning `Except.error e` models the underlying
Python call raising an exception with text `e`. -/
structure Env where
  murfApiKey : Option String
  assemblyaiApiKey : Option String
  geminiApiKey : Option String
  transcribe : Option String → List Nat → Except String String
  murf : Option String → MurfPayload → Except String MurfResp
  fetch : String → Except String FetchResp
  gemini : Option String → String → Except String GeminiResp

/-- Body of a JSON response produced by an endpoint. -/
inductive RespBody where
  | errorMsg (msg : String)
  | audioUrl (url : String)
  | llmResponse (text : String)
deriving DecidableEq, Repr

/-- HTTP response of an endpoint: either a `JSONResponse` with a status
code and body, or a `StreamingResponse` with a media type and content
bytes. -/
inductive Response where
  | json (status : Nat) (body : RespBody)
  | stream (mediaType : String) (content : List Nat)
deriving DecidableEq, Repr

/-- Request body of `/generate` and `/murf-tts-json` (`TextRequest` /
`TTSRequest` in src/app.py: a `text` and a `voice` defaulting to
"default"). -/
structure TextRequest where
  text : String
  voice : String
deriving DecidableEq, Repr

/-- Model of Python truthiness for an optional string: `None` and the
empty string are falsy. -/
def pyAbsent : Option String → Bool
  | none => true
  | some s => s.isEmpty

/-- Endpoint `POST /generate` (src/app.py lines 76-99).  The handler has
no `try`/`except`, so an exception raised inside it — the Murf HTTP call
raising, or the `result["audioFile"]` lookup raising `KeyError` when the
200-status body lacks the key — escapes the endpoint, modelled by
`Except.error`.  Returns the result together with the trace of provider
calls issued. -/
def generate_voice (env : Env) (data : TextRequest) :
    Except String Response × List ProviderCall :=
  let voice_id := generateResolve data.voice
  let payload : MurfPayload := ⟨data.text, voice_id, none⟩
  let calls := [ProviderCall.murfGenerate env.murfApiKey payload]
  match env.murf env.murfApiKey payload with
  | .error e => (.error e, calls)
  | .ok r =>
    if r.status = 200 then
      match r.audioFile with
      | some url => (.ok (.json 200 (.audioUrl url)), calls)
      | none => (.error "KeyError: audioFile", calls)
    else
      (.ok (.json r.status (.errorMsg r.text)), calls)

/-- The `try` block of `POST /voice-reply` (src/app.py lines 157-193):
transcribe the uploaded bytes, resolve the voice label, call Murf,
extract `audioFile`, download the audio, and stream it.  `Except.error`
is an exception propagating to the handler's `except` clause. -/
def voice_reply_core (env : Env) (audioBytes : List Nat) (voice : String) :
    Except String Response × List ProviderCall :=
  match env.transcribe env.assemblyaiApiKey audioBytes with
  | .error e => (.error e, [ProviderCall.transcribe env.assemblyaiApiKey audioBytes])
  | .ok text =>
    let voice_id := voiceReplyResolve voice
    let payload : MurfPayload := ⟨text, voice_id, some "mp3"⟩
    let calls := [ProviderCall.transcribe env.assemblyaiApiKey audioBytes,
                  ProviderCall.murfGenerate env.murfApiKey payload]
    match env.murf env.murfApiKey payload with
    | .error e => (.error e, calls)
    | .ok r =>
      if r.status ≠ 200 then
        (.ok (.json r.status (.errorMsg r.text)), calls)
      else if pyAbsent r.audioFile then
        (.ok (.json 500 (.errorMsg "No audio file URL returned by Murf AI")), calls)
      else
        let url := r.audioFile.getD ""
        let calls2 := calls ++ [ProviderCall.fetchAudio url]
        match env.fetch url with
        | .error e => (.error e, calls2)
        | .ok f =>
          if f.status ≠ 200 then
            (.ok (.json 500 (.errorMsg "Failed to download audio from Murf AI")), calls2)
          else
            (.ok (.stream "audio/mpeg" f.content), calls2)

/-- Endpoint `POST /voice-reply` (src/app.py lines 155-196): the `try`
body wrapped in the `except Exception as e` clause, which turns any
exception into `JSONResponse(status_code=500, content={"error": str(e)})`. -/
def voice_reply (env : Env) (audioBytes : List Nat) (voice : String) :
    Response × List ProviderCall :=
  match voice_reply_core env audioBytes voice with
  | (.ok r, calls) => (r, calls)
  | (.error e, calls) => (.json 500 (.errorMsg e), calls)

/-- Endpoint `POST /murf-tts` (src/app.py lines 198-200): the handler
body is exactly `return await voice_reply(file, voice)`. -/
def murf_tts_alias (env : Env) (audioBytes : List Nat) (voice : String) :
    Response × List ProviderCall :=
  voice_reply env audioBytes voice

/-- The `try` block of `POST /murf-tts-json` (src/app.py lines 212-241):
same pipeline as `/voice-reply` but starting from the request's `text`
field instead of a transcription. -/
def murf_tts_json_core (env : Env) (data : TextRequest) :
    Except String Response × List ProviderCall :=
  let voice_id := murfTtsJsonResolve data.voice
  let payload : MurfPayload := ⟨data.text, voice_id, some "mp3"⟩
  let calls := [ProviderCall.murfGenerate env.murfApiKey payload]
  match env.murf env.murfApiKey payload with
  | .error e => (.error e, calls)
  | .ok r =>
    if r.status ≠ 200 then
      (.ok (.json r.status (.errorMsg r.text)), calls)
    else if pyAbsent r.audioFile then
      (.ok (.json 500 (.errorMsg "No audio file URL returned by Murf AI")), calls)
    else
      let url := r.audioFile.getD ""
      let calls2 := calls ++ [ProviderCall.fetchAudio url]
      match env.fetch url with
      | .error e => (.error e, calls2)
      | .ok f =>
        if f.status ≠ 200 then
          (.ok (.json 500 (.errorMsg "Failed to download audio from Murf AI")), calls2)
        else
          (.ok (.stream "audio/mpeg" f.content), calls2)

/-- Endpoint `POST /murf-tts-json` (src/app.py lines 210-244): the `try`
body wrapped in the `except Exception as e` clause. -/
def murf_tts_json (env : Env) (data : TextRequest) :
    Response × List ProviderCall :=
  match murf_tts_json_core env data with
  | (.ok r, calls) => (r, calls)
  | (.error e, calls) => (.json 500 (.errorMsg e), calls)

/-- Endpoint `POST /llm/query` (src/app.py lines 253-277).  `Except.error
(s, d)` is a raised `HTTPException(status_code=s, detail=d)`, which the
framework renders as an error response with status `s`.  The handler
first rejects when no Gemini key is configured (Python truthiness, before
any provider call); inside the `try`, `raise_for_status()` raises
`requests.HTTPError` for statuses ≥ 400, handled by re-raising with the
provider's status and body; the `HTTPException` raised when `candidates`
is absent or empty is itself caught by the final `except Exception`
clause (its `str` form is `"500: No response from Gemini API"`). -/
def llm_query (env : Env) (text : String) :
    Except (Nat × String) Response × List ProviderCall :=
  if pyAbsent env.geminiApiKey then
    (.error (500, "Gemini API key not configured"), [])
  else
    let calls := [ProviderCall.gemini env.geminiApiKey text]
    match env.gemini env.geminiApiKey text with
    | .error e => (.error (500, s!"Internal error: {e}"), calls)
    | .ok r =>
      if 400 ≤ r.status then
        (.error (r.status, s!"Gemini API error: {r.text}"), calls)
      else
        match r.firstCandidate with
        | some t => (.ok (.json 200 (.llmResponse t)), calls)
        | none =>
          (.error (500, "Internal error: 500: No response from Gemini API"), calls)

/-- A fully healthy environment: all keys set, every provider succeeds. -/
def envBase : Env where
  murfApiKey := some "murf-key"
  assemblyaiApiKey := some "aai-key"
  geminiApiKey := some "gemini-key"
  transcribe := fun _ _ => .ok "hello there"
  murf := fun _ _ => .ok ⟨200, "ok-body", some "https://murf.example/audio.mp3"⟩
  fetch := fun _ => .ok ⟨200, [1, 2, 3]⟩
  gemini := fun _ _ => .ok ⟨200, "gemini-body", some "gemini says hi"⟩

/-- Environment in which the transcription call raises. -/
def envTranscribeFails : Env :=
  { envBase with transcribe := fun _ _ => .error "transcription failed" }

/-- Environment in which the synthesis provider answers with status 404. -/
def envMurf404 : Env :=
  { envBase with murf := fun _ _ => .ok ⟨404, "not found", none⟩ }

/-- Environment in which the synthesis provider answers 200 with a body
lacking the `audioFile` key. -/
def envMurfNoAudio : Env :=
  { envBase with murf := fun _ _ => .ok ⟨200, "{}", none⟩ }

/-- Environment in which synthesis succeeds but the audio download
answers with status 403. -/
def envFetchFails : Env :=
  { envBase with fetch := fun _ => .ok ⟨403, []⟩ }

/-- Environment with no Gemini key configured. -/
def envNoGemini : Env :=
  { envBase with geminiApiKey := none }

/-- C1: for every style label, the resolved provider voice ID is the one
the fixed map assigns to the recognized labels (default → en-US-natalie,
narrator → en-US-terrell, support → en-US-miles, sergeant → en-US-ken,
game → en-US-paul), and every label not in the map (after the code's
case folding) resolves to the default voice ID en-US-natalie; the
resolution steps of `/generate`, `/voice-reply` and `/murf-tts-json`
agree on every label. -/
theorem C1_style_resolution :
    (∀ s : String, voiceReplyResolve s = generateResolve s ∧
        murfTtsJsonResolve s = generateResolve s) ∧
    generateResolve "default" = "en-US-natalie" ∧
    generateResolve "narrator" = "en-US-terrell" ∧
    generateResolve "support" = "en-US-miles" ∧
    generateResolve "sergeant" = "en-US-ken" ∧
    generateResolve "game" = "en-US-paul" ∧
    ∀ s : String, generate_voice_map.lookup (strLower s) = none →
      generateResolve s = "en-US-natalie" := by
  refine ⟨fun s => ⟨rfl, rfl⟩, by decide, by decide, by decide, by decide,
    by decide, ?_⟩
  intro s h
  unfold generateResolve dictGet
  rw [h]

/-- Witness for C1 at the unrecognized label "robot". -/
theorem C1_style_resolution_witness :
    generate_voice_map.lookup (strLower "robot") = none ∧
    generateResolve "robot" = "en-US-natalie" :=
  ⟨by decide, C1_style_resolution.2.2.2.2.2.2 "robot" (by decide)⟩

/-- C10: voice-style resolution is case-insensitive: resolving any label
yields the same voice ID as resolving its lowercase form, in all three
endpoints; in particular "NARRATOR" resolves like "narrator". -/
theorem C10_case_insensitive :
    (∀ s : String, generateResolve s = generateResolve (strLower s) ∧
        voiceReplyResolve s = voiceReplyResolve (strLower s) ∧
        murfTtsJsonResolve s = murfTtsJsonResolve (strLower s)) ∧
    generateResolve "NARRATOR" = generateResolve "narrator" := by
  constructor
  · intro s
    refine ⟨?_, ?_, ?_⟩ <;>
      simp only [generateResolve, voiceReplyResolve, murfTtsJsonResolve,
        strLower_idem]
  · decide

/-- C8: `/murf-tts` is behaviourally equivalent to `/voice-reply`: for
every environment, uploaded bytes and voice form field the two endpoints
produce the same response and the same provider-call trace. -/
theorem C8_murf_tts_equiv_voice_reply :
    ∀ (env : Env) (audioBytes : List Nat) (voice : String),
      murf_tts_alias env audioBytes voice = voice_reply env audioBytes voice :=
  fun _ _ _ => rfl

/-- C2: whenever the transcription call of `/voice-reply` raises, the
endpoint returns a 500 error response carrying the exception text and the
execution issues no request to the synthesis provider (its trace contains
no `murfGenerate` call). -/
theorem C2_transcription_failure_no_synthesis
    (env : Env) (audioBytes : List Nat) (voice e : String)
    (h : env.transcribe env.assemblyaiApiKey audioBytes = .error e) :
    (voice_reply env audioBytes voice).1 = .json 500 (.errorMsg e) ∧
    ∀ c ∈ (voice_reply env audioBytes voice).2,
      ∀ (k : Option String) (p : MurfPayload),
        c ≠ ProviderCall.murfGenerate k p := by
  unfold voice_reply voice_reply_core
  rw [h]
  refine ⟨rfl, ?_⟩
  intro c hc k p
  simp only [List.mem_singleton] at hc
  subst hc
  intro hcontra
  cases hcontra

/-- Witness for C2 in an environment whose transcription call raises. -/
theorem C2_witness :
    envTranscribeFails.transcribe envTranscribeFails.assemblyaiApiKey [7] =
        .error "transcription failed" ∧
    (voice_reply envTranscribeFails [7] "default").1 =
        .json 500 (.errorMsg "transcription failed") :=
  ⟨rfl, (C2_transcription_failure_no_synthesis envTranscribeFails [7] "default"
    "transcription failed" rfl).1⟩

/-- C3: whenever the synthesis provider answers `/voice-reply` or
`/murf-tts-json` with a status other than 200, the endpoint's response
has exactly that status code and its body is the error object carrying
the provider's response body. -/
theorem C3_non200_passthrough :
    (∀ (env : Env) (audioBytes : List Nat) (voice t : String) (r : MurfResp),
        env.transcribe env.assemblyaiApiKey audioBytes = .ok t →
        env.murf env.murfApiKey ⟨t, voiceReplyResolve voice, some "mp3"⟩ = .ok r →
        r.status ≠ 200 →
        (voice_reply env audioBytes voice).1 = .json r.status (.errorMsg r.text)) ∧
    (∀ (env : Env) (data : TextRequest) (r : MurfResp),
        env.murf env.murfApiKey
            ⟨data.text, murfTtsJsonResolve data.voice, some "mp3"⟩ = .ok r →
        r.status ≠ 200 →
        (murf_tts_json env data).1 = .json r.status (.errorMsg r.text)) := by
  constructor
  · intro env a voice t r ht hm hs
    unfold voice_reply voice_reply_core
    simp only [ht, hm, if_pos hs]
  · intro env data r hm hs
    unfold murf_tts_json murf_tts_json_core
    simp only [hm, if_pos hs]

/-- Witness for C3 in an environment whose synthesis provider answers
with status 404 and body "not found". -/
theorem C3_witness :
    (voice_reply envMurf404 [7] "default").1 = .json 404 (.errorMsg "not found") ∧
    (murf_tts_json envMurf404 ⟨"hi", "default"⟩).1 =
        .json 404 (.errorMsg "not found") :=
  ⟨C3_non200_passthrough.1 envMurf404 [7] "default" "hello there"
      ⟨404, "not found", none⟩ rfl rfl (by decide),
   C3_non200_passthrough.2 envMurf404 ⟨"hi", "default"⟩
      ⟨404, "not found", none⟩ rfl (by decide)⟩

/-- C5: whenever the synthesis provider answers `/voice-reply` or
`/murf-tts-json` with status 200 but its body lacks the `audioFile` field
(absent or empty), the endpoint returns a generic 500 error response
rather than raising. -/
theorem C5_missing_audio_location :
    (∀ (env : Env) (audioBytes : List Nat) (voice t : String) (r : MurfResp),
        env.transcribe env.assemblyaiApiKey audioBytes = .ok t →
        env.murf env.murfApiKey ⟨t, voiceReplyResolve voice, some "mp3"⟩ = .ok r →
        r.status = 200 →
        pyAbsent r.audioFile = true →
        (voice_reply env audioBytes voice).1 =
          .json 500 (.errorMsg "No audio file URL returned by Murf AI")) ∧
    (∀ (env : Env) (data : TextRequest) (r : MurfResp),
        env.murf env.murfApiKey
            ⟨data.text, murfTtsJsonResolve data.voice, some "mp3"⟩ = .ok r →
        r.status = 200 →
        pyAbsent r.audioFile = true →
        (murf_tts_json env data).1 =
          .json 500 (.errorMsg "No audio file URL returned by Murf AI")) := by
  constructor
  · intro env a voice t r ht hm hs hab
    unfold voice_reply voice_reply_core
    simp only [ht, hm, hs, hab, ne_eq, not_true_eq_false, if_false, if_true]
  · intro env data r hm hs hab
    unfold murf_tts_json murf_tts_json_core
    simp only [hm, hs, hab, ne_eq, not_true_eq_false, if_false, if_true]

/-- Witness for C5 in an environment whose synthesis provider answers 200
with a body lacking `audioFile`. -/
theorem C5_witness :
    (voice_reply envMurfNoAudio [7] "default").1 =
        .json 500 (.errorMsg "No audio file URL returned by Murf AI") ∧
    (murf_tts_json envMurfNoAudio ⟨"hi", "default"⟩).1 =
        .json 500 (.errorMsg "No audio file URL returned by Murf AI") :=
  ⟨C5_missing_audio_location.1 envMurfNoAudio [7] "default" "hello there"
      ⟨200, "{}", none⟩ rfl rfl rfl rfl,
   C5_missing_audio_location.2 envMurfNoAudio ⟨"hi", "default"⟩
      ⟨200, "{}", none⟩ rfl rfl rfl⟩

/-- C6: whenever synthesis succeeds with an audio location but
downloading the audio from that location answers a non-200 status, the
endpoint returns a generic 500 failure response (a JSON error, not a
streamed byte response). -/
theorem C6_fetch_failure :
    (∀ (env : Env) (audioBytes : List Nat) (voice t url : String)
        (r : MurfResp) (f : FetchResp),
        env.transcribe env.assemblyaiApiKey audioBytes = .ok t →
        env.murf env.murfApiKey ⟨t, voiceReplyResolve voice, some "mp3"⟩ = .ok r →
        r.status = 200 →
        r.audioFile = some url →
        url ≠ "" →
        env.fetch url = .ok f →
        f.status ≠ 200 →
        (voice_reply env audioBytes voice).1 =
          .json 500 (.errorMsg "Failed to download audio from Murf AI")) ∧
    (∀ (env : Env) (data : TextRequest) (url : String)
        (r : MurfResp) (f : FetchResp),
        env.murf env.murfApiKey
            ⟨data.text, murfTtsJsonResolve data.voice, some "mp3"⟩ = .ok r →
        r.status = 200 →
        r.audioFile = some url →
        url ≠ "" →
        env.fetch url = .ok f →
        f.status ≠ 200 →
        (murf_tts_json env data).1 =
          .json 500 (.errorMsg "Failed to download audio from Murf AI")) := by
  have habsent : ∀ (url : String), url ≠ "" → pyAbsent (some url) = false := by
    intro url hu
    have hne : url.isEmpty = false := by
      rw [Bool.eq_false_iff]
      intro hcontra
      exact hu ((String.isEmpty_iff url).mp hcontra)
    simpa [pyAbsent] using hne
  constructor
  · intro env a voice t url r f ht hm hs haf hu hf hfs
    unfold voice_reply voice_reply_core
    simp [ht, hm, hs, haf, habsent url hu, hf, if_pos hfs]
  · intro env data url r f hm hs haf hu hf hfs
    unfold murf_tts_json murf_tts_json_core
    simp [hm, hs, haf, habsent url hu, hf, if_pos hfs]

/-- Witness for C6 in an environment where synthesis succeeds and the
audio download answers with status 403. -/
theorem C6_witness :
    (voice_reply envFetchFails [7] "default").1 =
        .json 500 (.errorMsg "Failed to download audio from Murf AI") ∧
    (murf_tts_json envFetchFails ⟨"hi", "default"⟩).1 =
        .json 500 (.errorMsg "Failed to download audio from Murf AI") :=
  ⟨C6_fetch_failure.1 envFetchFails [7] "default" "hello there"
      "https://murf.example/audio.mp3" ⟨200, "ok-body",
      some "https://murf.example/audio.mp3"⟩ ⟨403, []⟩
      rfl rfl rfl rfl (by decide) rfl (by decide),
   C6_fetch_failure.2 envFetchFails ⟨"hi", "default"⟩
      "https://murf.example/audio.mp3" ⟨200, "ok-body",
      some "https://murf.example/audio.mp3"⟩ ⟨403, []⟩
      rfl rfl rfl (by decide) rfl (by decide)⟩

/-- C7: whenever no Gemini API key is configured, `/llm/query` fails with
an HTTP 500 configuration error stating the key is not configured, and
its execution issues no provider request at all. -/
theorem C7_llm_missing_key (env : Env) (text : String)
    (h : env.geminiApiKey = none) :
    llm_query env text = (.error (500, "Gemini API key not configured"), []) := by
  unfold llm_query
  rw [h]
  rfl

/-- Witness for C7 in an environment with no Gemini key. -/
theorem C7_witness :
    llm_query envNoGemini "hi" =
      (.error (500, "Gemini API key not configured"), []) :=
  C7_llm_missing_key envNoGemini "hi" rfl

/-- C9: provider keys degrade only their dependent endpoints.  Changing
the Gemini key leaves `/generate`, `/voice-reply` and `/murf-tts-json`
unchanged on every input and provider behaviour; symmetrically,
`/llm/query` is unchanged by the Murf and AssemblyAI keys and by the
behaviour of the transcription, synthesis and download providers; and
`/generate` and `/murf-tts-json` are unchanged by the AssemblyAI key and
the transcription provider, which they never call. -/
theorem C9_key_isolation :
    (∀ (env : Env) (g : Option String) (data : TextRequest),
        generate_voice { env with geminiApiKey := g } data =
          generate_voice env data) ∧
    (∀ (env : Env) (g : Option String) (audioBytes : List Nat) (voice : String),
        voice_reply { env with geminiApiKey := g } audioBytes voice =
          voice_reply env audioBytes voice) ∧
    (∀ (env : Env) (g : Option String) (data : TextRequest),
        murf_tts_json { env with geminiApiKey := g } data =
          murf_tts_json env data) ∧
    (∀ (env : Env) (mk ak : Option String)
        (tr : Option String → List Nat → Except String String)
        (mu : Option String → MurfPayload → Except String MurfResp)
        (fe : String → Except String FetchResp) (text : String),
        llm_query { env with murfApiKey := mk, assemblyaiApiKey := ak, transcribe := tr, murf := mu, fetch := fe } text =
          llm_query env text) ∧
    (∀ (env : Env) (ak : Option String)
        (tr : Option String → List Nat → Except String String)
        (data : TextRequest),
        generate_voice { env with assemblyaiApiKey := ak, transcribe := tr } data =
          generate_voice env data) ∧
    (∀ (env : Env) (ak : Option String)
        (tr : Option String → List Nat → Except String String)
        (data : TextRequest),
        murf_tts_json { env with assemblyaiApiKey := ak, transcribe := tr } data =
          murf_tts_json env data) :=
  ⟨fun _ _ _ => rfl, fun _ _ _ _ => rfl, fun _ _ _ => rfl,
   fun _ _ _ _ _ _ _ => rfl, fun _ _ _ _ => rfl, fun _ _ _ _ => rfl⟩

/-- C4 counterexample: `/generate` has no `try`/`except`.  In an
environment whose synthesis provider answers status 200 with a body
lacking `audioFile`, the handler's `result["audioFile"]` lookup raises a
`KeyError` that escapes the endpoint instead of being caught and turned
into a 500 response with the exception text. -/
theorem C4_counterexample :
    (generate_voice envMurfNoAudio ⟨"hello", "default"⟩).1 =
        Except.error "KeyError: audioFile" ∧
    (generate_voice envMurfNoAudio ⟨"hello", "default"⟩).1.isOk = false :=
  ⟨rfl, rfl⟩

/-- C4 (amended): in `/voice-reply` and `/murf-tts-json` every exception
raised inside the `try` block is caught at the endpoint boundary and
returned as a generic 500 response whose body carries the exception text;
`/generate` has no such handler and lets exceptions escape. -/
theorem C4_amended_boundary_catch :
    (∀ (env : Env) (audioBytes : List Nat) (voice e : String)
        (calls : List ProviderCall),
        voice_reply_core env audioBytes voice = (.error e, calls) →
        voice_reply env audioBytes voice = (.json 500 (.errorMsg e), calls)) ∧
    (∀ (env : Env) (data : TextRequest) (e : String)
        (calls : List ProviderCall),
        murf_tts_json_core env data = (.error e, calls) →
        murf_tts_json env data = (.json 500 (.errorMsg e), calls)) := by
  constructor
  · intro env a voice e calls h
    unfold voice_reply
    rw [h]
  · intro env data e calls h
    unfold murf_tts_json
    rw [h]

/-- Witness for the amended C4 in an environment whose transcription call
raises inside the `try` block of `/voice-reply`. -/
theorem C4_amended_witness :
    voice_reply_core envTranscribeFails [7] "game" =
        (.error "transcription failed",
         [ProviderCall.transcribe (some "aai-key") [7]]) ∧
    voice_reply envTranscribeFails [7] "game" =
        (.json 500 (.errorMsg "transcription failed"),
         [ProviderCall.transcribe (some "aai-key") [7]]) :=
  ⟨rfl, C4_amended_boundary_catch.1 envTranscribeFails [7] "game"
    "transcription failed" [ProviderCall.transcribe (some "aai-key") [7]] rfl⟩

end FlaskDeploy
